import Mathlib

/-!
Shallow embedding of the memory and relationship subsystem of the
vrm-ai-girlfriend repository, together with proofs checking the
specification's claims against the code.

Sources embedded here:
- the Supabase SQL schema and stored procedures (src/unnamed/part_001):
  `upsert_long_term_memory`, `match_episodic_memories`;
- the server-side `MemoryManager` (src/unnamed/part_000): character
  registry, memory structure creation, deep merge, load/save with the
  character-isolation checks, chat-history bookkeeping and relationship
  metric updates;
- the `MemorySystem` client (src/memory-system.js): rolling summaries and
  `buildContextForAI`.

External capabilities (the completion model, the embedding model, the
`pgvector` cosine-distance operator, the wall clock) are passed in as
explicit parameters, as the code consumes them as opaque services.
-/

set_option maxHeartbeats 1000000

namespace VrmAI

/-! ## String helpers mirroring the JavaScript string primitives used -/

/-- Does the second list start with the first one?  Used to implement the
substring tests below. -/
def leadsWith : List Char → List Char → Bool
  | [], _ => true
  | _ :: _, [] => false
  | a :: as, b :: bs => (a = b) && leadsWith as bs

/-- Does the list contain the first list as a contiguous run?  Models the
JavaScript `String.prototype.includes`. -/
def hasSub (needle : List Char) : List Char → Bool
  | [] => leadsWith needle []
  | c :: rest => leadsWith needle (c :: rest) || hasSub needle rest

/-- Models `hay.includes(needle)` on JavaScript strings. -/
def strContains (hay needle : String) : Bool :=
  hasSub needle.toList hay.toList

/-- Models `s.toLowerCase()` (the identifiers and keywords involved are
ASCII or Chinese, where `Char.toLower` agrees with JavaScript). -/
def jsToLower (s : String) : String :=
  String.mk (s.toList.map Char.toLower)

/-- Removes the first occurrence of `pat`, as JavaScript
`s.replace(pat, "")` does for a string pattern. -/
def jsRemoveFirst (pat : List Char) : List Char → List Char
  | [] => []
  | c :: rest =>
    if leadsWith pat (c :: rest) then (c :: rest).drop pat.length
    else c :: jsRemoveFirst pat rest

/-- Models `userId.replace('wallet_', '')` from the server code. -/
def stripWallet (userId : String) : String :=
  String.mk (jsRemoveFirst "wallet_".toList userId.toList)

/-! ## Long-term fact store (SQL function `upsert_long_term_memory`)

The table `long_term_memories` has `UNIQUE(user_id, npc_id, category, key)`
with a nullable `key`.  Postgres unique indexes treat NULLs as distinct, so
an `INSERT ... ON CONFLICT (user_id, npc_id, category, key) DO UPDATE` only
takes the update path when the incoming key is non-null and an existing row
carries the same non-null key; with a null key the insert always succeeds
and can duplicate (user, npc, category, NULL) rows.  Timestamps are an
abstract clock passed in as a rational. -/

structure LongTermRow where
  userId : String
  npcId : String
  category : String
  key : Option String
  value : String
  confidence : Rat
  lastSeenAt : Rat
  createdAt : Rat
deriving DecidableEq, Repr

/-- The arbiter condition of `ON CONFLICT (user_id, npc_id, category, key)`:
equality on the three text columns and on the key, where two NULL keys do
not conflict. -/
def keyConflict (r : LongTermRow) (uid nid cat : String) (k : Option String) : Bool :=
  decide (r.userId = uid) && decide (r.npcId = nid) && decide (r.category = cat) &&
    decide (r.key = k) && k.isSome

/-- Embeds the stored procedure `upsert_long_term_memory`: insert the row,
and on conflict replace the value, set
`confidence = LEAST(1.0, old * 0.7 + incoming * 0.3)` and reset
`last_seen_at` to now. -/
def upsertLongTermMemory (tbl : List LongTermRow) (uid nid cat : String)
    (k : Option String) (v : String) (conf : Rat) (now : Rat) : List LongTermRow :=
  if tbl.any (fun r => keyConflict r uid nid cat k) then
    tbl.map (fun r =>
      if keyConflict r uid nid cat k then
        { r with value := v,
                 confidence := min 1 (r.confidence * (7/10) + conf * (3/10)),
                 lastSeenAt := now }
      else r)
  else
    tbl ++ [{ userId := uid, npcId := nid, category := cat, key := k, value := v,
              confidence := conf, lastSeenAt := now, createdAt := now }]

/-- Confidences of the rows matching a given (user, npc, category, key),
in table order.  Used to observe the effect of repeated upserts. -/
def matchingConfidences (tbl : List LongTermRow) (uid nid cat : String)
    (k : Option String) : List Rat :=
  (tbl.filter (fun r => keyConflict r uid nid cat k)).map (fun r => r.confidence)

/-- Clamp to [0, 1], as the specification's merge rule is phrased. -/
def clamp01 (x : Rat) : Rat := max 0 (min 1 x)

/-! ## Episodic memory search (SQL function `match_episodic_memories`)

`pgvector`'s cosine-distance operator is taken as an opaque parameter
`cosDist`; the SQL computes `similarity = 1 - (embedding <=> query)`,
keeps rows of the requested (user, npc) whose similarity is strictly above
the threshold, orders by distance ascending (similarity descending), and
limits to the match count. -/

structure EpisodicRow (Emb : Type) where
  id : Nat
  userId : String
  npcId : String
  text : String
  embedding : Emb
  createdAt : Rat

structure EpisodicMatch where
  id : Nat
  text : String
  createdAt : Rat
  similarity : Rat
deriving DecidableEq, Repr

/-- Ordering used by the `ORDER BY e.embedding <=> p_query_embedding`. -/
def distLe {Emb : Type} (cosDist : Emb → Emb → Rat) (q : Emb)
    (a b : EpisodicRow Emb) : Prop :=
  cosDist a.embedding q ≤ cosDist b.embedding q

instance {Emb : Type} (cosDist : Emb → Emb → Rat) (q : Emb) :
    DecidableRel (distLe cosDist q) :=
  fun _ _ => inferInstanceAs (Decidable (_ ≤ _))

/-- Embeds the SQL function `match_episodic_memories`: filter to the
requested (user, npc) with similarity strictly above the threshold, order
by distance ascending, limit to the match count, and project out the
result columns. -/
def matchEpisodicMemories {Emb : Type} (cosDist : Emb → Emb → Rat)
    (db : List (EpisodicRow Emb)) (uid nid : String) (q : Emb)
    (k : Nat) (threshold : Rat) : List EpisodicMatch :=
  ((List.insertionSort (distLe cosDist q)
      (db.filter (fun e =>
        decide (e.userId = uid) && decide (e.npcId = nid) &&
          decide (threshold < 1 - cosDist e.embedding q)))).take k).map
    (fun e =>
      { id := e.id, text := e.text, createdAt := e.createdAt,
        similarity := 1 - cosDist e.embedding q })

/-! ## Character registry and the MemoryManager memory structure

`MemoryManager` (src/unnamed/part_000) keeps one JSON memory blob per
(userId, characterId).  The character registry is the fixed array in
`isValidCharacterId`, which tests membership of `characterId.toLowerCase()`.
Timestamps produced with `new Date().toISOString()` are modelled by a
`now : String` parameter. -/

/-- The fixed registry array from `MemoryManager.isValidCharacterId`. -/
def validCharacters : List String :=
  ["alice", "ash", "bobo", "elinyaa", "fliza", "imeris", "kyoko", "lena",
   "lilium", "maple", "miru", "miumiu", "neco", "nekona", "notia", "ququ",
   "rainy", "rindo", "sikirei", "vivi", "wolf", "wolferia", "yawl", "yuu-yii", "zwei"]

/-- Embeds `MemoryManager.isValidCharacterId`: membership of the lowercased
id in the registry. -/
def isValidCharacterId (characterId : String) : Bool :=
  validCharacters.contains (jsToLower characterId)

inductive CommStyle where
  | formal
  | casual
  | intimate
deriving DecidableEq, Repr

/-- Rank of a communication style along the formal → casual → intimate
progression, used to state the one-way-ratchet property. -/
def styleRank : CommStyle → Nat
  | .formal => 0
  | .casual => 1
  | .intimate => 2

/-- Entries of `relationship.specialMoments` (and of the special-event
lists), pushed as `{content, timestamp, importance, type}` objects. -/
structure SpecialMoment where
  content : String
  timestamp : String
  importance : Rat
  momentType : String
deriving DecidableEq, Repr

structure Milestones where
  firstMeeting : Option String
  firstSecret : Option String
  deepConversation : Option String
  firstCompliment : Option String
  firstArgument : Option String
deriving DecidableEq, Repr

structure Relationship where
  level : Nat
  trust : Rat
  intimacy : Rat
  affection : Rat
  specialMoments : List SpecialMoment
  nicknames : List String
  relationshipMilestones : Milestones
  communicationStyle : CommStyle
deriving DecidableEq, Repr

/-- An entry of `fullChatHistory`: the incoming message object spread
together with the two derived counters added by `addChatMessage`. -/
structure StoredChat where
  sender : Option String
  content : String
  emotion : Option String
  messageLength : Nat
  wordsCount : Nat
deriving DecidableEq, Repr

structure UserProfile where
  name : Option String
  nickname : Option String
  age : Option String
  personality : Option String
  background : Option String
  currentMood : String
  secrets : List String
  goals : List String
  fears : List String
  lastProfileUpdate : Option String
deriving DecidableEq, Repr

structure TopicMemories where
  work : List String
  family : List String
  hobbies : List String
  relationships : List String
  dreams : List String
  problems : List String
  preferences : List String
  dislikes : List String
deriving DecidableEq, Repr

structure TemporalContext where
  lastChatTime : Option String
  chatFrequency : Nat
  preferredChatTimes : List String
  longestConversation : Rat
  averageResponseTime : Rat
  timeZone : String
  dailyInteractions : List (String × Nat)
deriving DecidableEq, Repr

structure EmotionalTone where
  positive : Nat
  negative : Nat
  neutral : Nat
deriving DecidableEq, Repr

structure Statistics where
  totalMessages : Nat
  totalCharacters : Nat
  averageMessageLength : Rat
  emotionalTone : EmotionalTone
  topicsDiscussed : List (String × Nat)
  memoryImportance : List (String × Rat)
deriving DecidableEq, Repr

structure CharacterSpecific where
  sharedExperiences : List SpecialMoment
  insideJokes : List String
  conflictHistory : List String
  gifts : List String
  promises : List String
  futureePlans : List String
deriving DecidableEq, Repr

structure Memory where
  userId : String
  characterId : String
  createdAt : String
  lastUpdated : String
  memoryVersion : String
  userProfile : UserProfile
  relationship : Relationship
  fullChatHistory : List StoredChat
  topicMemories : TopicMemories
  temporalContext : TemporalContext
  statistics : Statistics
  characterSpecific : CharacterSpecific
deriving DecidableEq, Repr

/-- The object literal built by `MemoryManager.createNewMemoryStructure`
after its validity check has passed. -/
def newMemoryStructure (userId characterId : String) (now : String) : Memory :=
  { userId := userId
    characterId := characterId
    createdAt := now
    lastUpdated := now
    memoryVersion := "2.0"
    userProfile :=
      { name := none, nickname := none, age := none, personality := none,
        background := none, currentMood := "neutral", secrets := [],
        goals := [], fears := [], lastProfileUpdate := none }
    relationship :=
      { level := 1, trust := 10, intimacy := 5, affection := 10,
        specialMoments := [], nicknames := [],
        relationshipMilestones :=
          { firstMeeting := some now, firstSecret := none,
            deepConversation := none, firstCompliment := none,
            firstArgument := none },
        communicationStyle := .formal }
    fullChatHistory := []
    topicMemories :=
      { work := [], family := [], hobbies := [], relationships := [],
        dreams := [], problems := [], preferences := [], dislikes := [] }
    temporalContext :=
      { lastChatTime := none, chatFrequency := 0, preferredChatTimes := [],
        longestConversation := 0, averageResponseTime := 0,
        timeZone := "Asia/Shanghai", dailyInteractions := [] }
    statistics :=
      { totalMessages := 0, totalCharacters := 0, averageMessageLength := 0,
        emotionalTone := { positive := 0, negative := 0, neutral := 0 },
        topicsDiscussed := [], memoryImportance := [] }
    characterSpecific :=
      { sharedExperiences := [], insideJokes := [], conflictHistory := [],
        gifts := [], promises := [], futureePlans := [] } }

/-- Embeds `MemoryManager.createNewMemoryStructure`: throws on an invalid
character id, otherwise returns the fresh structure. -/
def createNewMemoryStructure (userId characterId : String) (now : String) :
    Except String Memory :=
  if isValidCharacterId characterId then
    .ok (newMemoryStructure userId characterId now)
  else
    .error ("Cannot create memory for invalid character ID: " ++ characterId)

/-! ## Loaded memory records and the dynamic deep merge

A record loaded from Supabase or from a memory file is loosely typed: any
field may be absent or null.  `ensureMemoryStructure` deep-merges it over a
fresh default structure: a source field overwrites the target when it is
neither undefined nor null, plain nested objects are merged recursively,
and arrays are copied wholesale.  We mirror that with `Option`-typed
partial records over the known memory shape (absent and null coincide). -/

structure PartialUserProfile where
  name : Option String := none
  nickname : Option String := none
  age : Option String := none
  personality : Option String := none
  background : Option String := none
  currentMood : Option String := none
  secrets : Option (List String) := none
  goals : Option (List String) := none
  fears : Option (List String) := none
  lastProfileUpdate : Option String := none
deriving DecidableEq, Repr

structure PartialMilestones where
  firstMeeting : Option String := none
  firstSecret : Option String := none
  deepConversation : Option String := none
  firstCompliment : Option String := none
  firstArgument : Option String := none
deriving DecidableEq, Repr

structure PartialRelationship where
  level : Option Nat := none
  trust : Option Rat := none
  intimacy : Option Rat := none
  affection : Option Rat := none
  specialMoments : Option (List SpecialMoment) := none
  nicknames : Option (List String) := none
  relationshipMilestones : Option PartialMilestones := none
  communicationStyle : Option CommStyle := none
deriving DecidableEq, Repr

structure PartialTopicMemories where
  work : Option (List String) := none
  family : Option (List String) := none
  hobbies : Option (List String) := none
  relationships : Option (List String) := none
  dreams : Option (List String) := none
  problems : Option (List String) := none
  preferences : Option (List String) := none
  dislikes : Option (List String) := none
deriving DecidableEq, Repr

structure PartialTemporalContext where
  lastChatTime : Option String := none
  chatFrequency : Option Nat := none
  preferredChatTimes : Option (List String) := none
  longestConversation : Option Rat := none
  averageResponseTime : Option Rat := none
  timeZone : Option String := none
  dailyInteractions : Option (List (String × Nat)) := none
deriving DecidableEq, Repr

structure PartialEmotionalTone where
  positive : Option Nat := none
  negative : Option Nat := none
  neutral : Option Nat := none
deriving DecidableEq, Repr

structure PartialStatistics where
  totalMessages : Option Nat := none
  totalCharacters : Option Nat := none
  averageMessageLength : Option Rat := none
  emotionalTone : Option PartialEmotionalTone := none
  topicsDiscussed : Option (List (String × Nat)) := none
  memoryImportance : Option (List (String × Rat)) := none
deriving DecidableEq, Repr

structure PartialCharacterSpecific where
  sharedExperiences : Option (List SpecialMoment) := none
  insideJokes : Option (List String) := none
  conflictHistory : Option (List String) := none
  gifts : Option (List String) := none
  promises : Option (List String) := none
  futureePlans : Option (List String) := none
deriving DecidableEq, Repr

structure PartialMemory where
  userId : Option String := none
  characterId : Option String := none
  createdAt : Option String := none
  lastUpdated : Option String := none
  memoryVersion : Option String := none
  userProfile : Option PartialUserProfile := none
  relationship : Option PartialRelationship := none
  fullChatHistory : Option (List StoredChat) := none
  topicMemories : Option PartialTopicMemories := none
  temporalContext : Option PartialTemporalContext := none
  statistics : Option PartialStatistics := none
  characterSpecific : Option PartialCharacterSpecific := none
deriving DecidableEq, Repr

/-- Insert-or-replace in an association list, keeping insertion order; this
is how assigning `target[key] = value` behaves on a JS object. -/
def upsertAssoc {β : Type} (l : List (String × β)) (k : String) (v : β) :
    List (String × β) :=
  if l.any (fun p => decide (p.1 = k)) then
    l.map (fun p => if p.1 = k then (p.1, v) else p)
  else l ++ [(k, v)]

/-- Deep merge of two free-keyed objects of scalars (`dailyInteractions`,
`topicsDiscussed`, `memoryImportance`): every source key overwrites. -/
def mergeAssoc {β : Type} (t s : List (String × β)) : List (String × β) :=
  s.foldl (fun acc p => upsertAssoc acc p.1 p.2) t

def mergeUserProfile (t : UserProfile) (s : PartialUserProfile) : UserProfile :=
  { name := (s.name).orElse (fun _ => t.name)
    nickname := (s.nickname).orElse (fun _ => t.nickname)
    age := (s.age).orElse (fun _ => t.age)
    personality := (s.personality).orElse (fun _ => t.personality)
    background := (s.background).orElse (fun _ => t.background)
    currentMood := s.currentMood.getD t.currentMood
    secrets := s.secrets.getD t.secrets
    goals := s.goals.getD t.goals
    fears := s.fears.getD t.fears
    lastProfileUpdate := (s.lastProfileUpdate).orElse (fun _ => t.lastProfileUpdate) }

def mergeMilestones (t : Milestones) (s : PartialMilestones) : Milestones :=
  { firstMeeting := (s.firstMeeting).orElse (fun _ => t.firstMeeting)
    firstSecret := (s.firstSecret).orElse (fun _ => t.firstSecret)
    deepConversation := (s.deepConversation).orElse (fun _ => t.deepConversation)
    firstCompliment := (s.firstCompliment).orElse (fun _ => t.firstCompliment)
    firstArgument := (s.firstArgument).orElse (fun _ => t.firstArgument) }

def mergeRelationship (t : Relationship) (s : PartialRelationship) : Relationship :=
  { level := s.level.getD t.level
    trust := s.trust.getD t.trust
    intimacy := s.intimacy.getD t.intimacy
    affection := s.affection.getD t.affection
    specialMoments := s.specialMoments.getD t.specialMoments
    nicknames := s.nicknames.getD t.nicknames
    relationshipMilestones :=
      match s.relationshipMilestones with
      | some pm => mergeMilestones t.relationshipMilestones pm
      | none => t.relationshipMilestones
    communicationStyle := s.communicationStyle.getD t.communicationStyle }

def mergeTopicMemories (t : TopicMemories) (s : PartialTopicMemories) : TopicMemories :=
  { work := s.work.getD t.work
    family := s.family.getD t.family
    hobbies := s.hobbies.getD t.hobbies
    relationships := s.relationships.getD t.relationships
    dreams := s.dreams.getD t.dreams
    problems := s.problems.getD t.problems
    preferences := s.preferences.getD t.preferences
    dislikes := s.dislikes.getD t.dislikes }

def mergeTemporalContext (t : TemporalContext) (s : PartialTemporalContext) :
    TemporalContext :=
  { lastChatTime := (s.lastChatTime).orElse (fun _ => t.lastChatTime)
    chatFrequency := s.chatFrequency.getD t.chatFrequency
    preferredChatTimes := s.preferredChatTimes.getD t.preferredChatTimes
    longestConversation := s.longestConversation.getD t.longestConversation
    averageResponseTime := s.averageResponseTime.getD t.averageResponseTime
    timeZone := s.timeZone.getD t.timeZone
    dailyInteractions :=
      match s.dailyInteractions with
      | some entries => mergeAssoc t.dailyInteractions entries
      | none => t.dailyInteractions }

def mergeEmotionalTone (t : EmotionalTone) (s : PartialEmotionalTone) : EmotionalTone :=
  { positive := s.positive.getD t.positive
    negative := s.negative.getD t.negative
    neutral := s.neutral.getD t.neutral }

def mergeStatistics (t : Statistics) (s : PartialStatistics) : Statistics :=
  { totalMessages := s.totalMessages.getD t.totalMessages
    totalCharacters := s.totalCharacters.getD t.totalCharacters
    averageMessageLength := s.averageMessageLength.getD t.averageMessageLength
    emotionalTone :=
      match s.emotionalTone with
      | some pt => mergeEmotionalTone t.emotionalTone pt
      | none => t.emotionalTone
    topicsDiscussed :=
      match s.topicsDiscussed with
      | some entries => mergeAssoc t.topicsDiscussed entries
      | none => t.topicsDiscussed
    memoryImportance :=
      match s.memoryImportance with
      | some entries => mergeAssoc t.memoryImportance entries
      | none => t.memoryImportance }

def mergeCharacterSpecific (t : CharacterSpecific) (s : PartialCharacterSpecific) :
    CharacterSpecific :=
  { sharedExperiences := s.sharedExperiences.getD t.sharedExperiences
    insideJokes := s.insideJokes.getD t.insideJokes
    conflictHistory := s.conflictHistory.getD t.conflictHistory
    gifts := s.gifts.getD t.gifts
    promises := s.promises.getD t.promises
    futureePlans := s.futureePlans.getD t.futureePlans }

/-- The recursive `deepMerge(newStructure, memory)` of
`ensureMemoryStructure`, restricted to the known memory shape. -/
def deepMergeMemory (t : Memory) (s : PartialMemory) : Memory :=
  { userId := s.userId.getD t.userId
    characterId := s.characterId.getD t.characterId
    createdAt := s.createdAt.getD t.createdAt
    lastUpdated := s.lastUpdated.getD t.lastUpdated
    memoryVersion := s.memoryVersion.getD t.memoryVersion
    userProfile :=
      match s.userProfile with
      | some p => mergeUserProfile t.userProfile p
      | none => t.userProfile
    relationship :=
      match s.relationship with
      | some p => mergeRelationship t.relationship p
      | none => t.relationship
    fullChatHistory := s.fullChatHistory.getD t.fullChatHistory
    topicMemories :=
      match s.topicMemories with
      | some p => mergeTopicMemories t.topicMemories p
      | none => t.topicMemories
    temporalContext :=
      match s.temporalContext with
      | some p => mergeTemporalContext t.temporalContext p
      | none => t.temporalContext
    statistics :=
      match s.statistics with
      | some p => mergeStatistics t.statistics p
      | none => t.statistics
    characterSpecific :=
      match s.characterSpecific with
      | some p => mergeCharacterSpecific t.characterSpecific p
      | none => t.characterSpecific }

/-- Embeds `MemoryManager.ensureMemoryStructure`.  A record whose embedded
`characterId` is truthy (non-empty) and differs from the requested one is
discarded in favour of a fresh structure; otherwise the record is
deep-merged over the defaults and the ids are forced to the requested
ones. -/
def ensureMemoryStructure (memory : PartialMemory) (userId characterId : String)
    (now : String) : Except String Memory :=
  let mismatched : Bool :=
    match memory.characterId with
    | some c => decide (c ≠ "") && decide (c ≠ characterId)
    | none => false
  if mismatched then createNewMemoryStructure userId characterId now
  else
    match createNewMemoryStructure userId characterId now with
    | .error e => .error e
    | .ok newStructure =>
      let merged := deepMergeMemory newStructure memory
      .ok { merged with characterId := characterId, userId := userId }

/-! ## Persistence façade (load and save with isolation checks)

The store behind the façade is the Supabase table `user_memories` (keyed by
wallet address and character id) with a file-per-pair fallback.  Reads and
writes of either backend are recorded in an access trace so that rejection
before touching persistence is observable. -/

inductive Access where
  | supabaseRead (userId characterId : String)
  | fileRead (fileName : String)
  | supabaseWrite (userId characterId : String)
  | fileWrite (fileName : String)
deriving DecidableEq, Repr

structure PersistState where
  supabaseAvailable : Bool
  userMemories : List (String × String × PartialMemory)
  memoryFiles : List (String × PartialMemory)
deriving DecidableEq, Repr

def lookupUserMemoryRow (rows : List (String × String × PartialMemory))
    (uid cid : String) : Option PartialMemory :=
  (rows.find? (fun r => decide (r.1 = uid) && decide (r.2.1 = cid))).map (fun r => r.2.2)

def memoryFileName (userId characterId : String) : String :=
  userId ++ "_" ++ characterId ++ ".json"

def lookupFile (files : List (String × PartialMemory)) (name : String) :
    Option PartialMemory :=
  (files.find? (fun p => decide (p.1 = name))).map (fun p => p.2)

/-- The file-system fallback inside `MemoryManager.getUserMemory`: a
missing file yields a fresh structure; a loaded record whose embedded
`characterId` is not strictly equal to the requested one (including the
absent case, since in JS `undefined !== characterId`) is discarded. -/
def getUserMemoryFileBranch (ps : PersistState) (userId characterId now : String) :
    Except String Memory :=
  match lookupFile ps.memoryFiles (memoryFileName userId characterId) with
  | some memory =>
    match memory.characterId with
    | some c =>
      if c ≠ characterId then createNewMemoryStructure userId characterId now
      else ensureMemoryStructure memory userId characterId now
    | none => createNewMemoryStructure userId characterId now
  | none => createNewMemoryStructure userId characterId now

/-- Embeds `MemoryManager.getUserMemory`.  An invalid character id throws
before any backend is touched (the internal throw is caught, and the catch
block's `createNewMemoryStructure` re-throws); otherwise Supabase is
consulted first and the file fallback second. -/
def getUserMemory (ps : PersistState) (userId characterId : String) (now : String) :
    Except String Memory × List Access :=
  if isValidCharacterId characterId then
    let wallet := stripWallet userId
    if ps.supabaseAvailable then
      match lookupUserMemoryRow ps.userMemories wallet characterId with
      | some memoryData =>
        (ensureMemoryStructure memoryData userId characterId now,
         [Access.supabaseRead wallet characterId])
      | none =>
        (getUserMemoryFileBranch ps userId characterId now,
         [Access.supabaseRead wallet characterId,
          Access.fileRead (memoryFileName userId characterId)])
    else
      (getUserMemoryFileBranch ps userId characterId now,
       [Access.fileRead (memoryFileName userId characterId)])
  else
    (createNewMemoryStructure userId characterId now, [])

/-- Serialization of an in-memory structure into a stored record (all
fields present), as `JSON.stringify` produces. -/
def memoryToPartial (m : Memory) : PartialMemory :=
  { userId := some m.userId
    characterId := some m.characterId
    createdAt := some m.createdAt
    lastUpdated := some m.lastUpdated
    memoryVersion := some m.memoryVersion
    userProfile := some
      { name := m.userProfile.name, nickname := m.userProfile.nickname,
        age := m.userProfile.age, personality := m.userProfile.personality,
        background := m.userProfile.background,
        currentMood := some m.userProfile.currentMood,
        secrets := some m.userProfile.secrets, goals := some m.userProfile.goals,
        fears := some m.userProfile.fears,
        lastProfileUpdate := m.userProfile.lastProfileUpdate }
    relationship := some
      { level := some m.relationship.level, trust := some m.relationship.trust,
        intimacy := some m.relationship.intimacy,
        affection := some m.relationship.affection,
        specialMoments := some m.relationship.specialMoments,
        nicknames := some m.relationship.nicknames,
        relationshipMilestones := some
          { firstMeeting := m.relationship.relationshipMilestones.firstMeeting,
            firstSecret := m.relationship.relationshipMilestones.firstSecret,
            deepConversation := m.relationship.relationshipMilestones.deepConversation,
            firstCompliment := m.relationship.relationshipMilestones.firstCompliment,
            firstArgument := m.relationship.relationshipMilestones.firstArgument },
        communicationStyle := some m.relationship.communicationStyle }
    fullChatHistory := some m.fullChatHistory
    topicMemories := some
      { work := some m.topicMemories.work, family := some m.topicMemories.family,
        hobbies := some m.topicMemories.hobbies,
        relationships := some m.topicMemories.relationships,
        dreams := some m.topicMemories.dreams,
        problems := some m.topicMemories.problems,
        preferences := some m.topicMemories.preferences,
        dislikes := some m.topicMemories.dislikes }
    temporalContext := some
      { lastChatTime := m.temporalContext.lastChatTime,
        chatFrequency := some m.temporalContext.chatFrequency,
        preferredChatTimes := some m.temporalContext.preferredChatTimes,
        longestConversation := some m.temporalContext.longestConversation,
        averageResponseTime := some m.temporalContext.averageResponseTime,
        timeZone := some m.temporalContext.timeZone,
        dailyInteractions := some m.temporalContext.dailyInteractions }
    statistics := some
      { totalMessages := some m.statistics.totalMessages,
        totalCharacters := some m.statistics.totalCharacters,
        averageMessageLength := some m.statistics.averageMessageLength,
        emotionalTone := some
          { positive := some m.statistics.emotionalTone.positive,
            negative := some m.statistics.emotionalTone.negative,
            neutral := some m.statistics.emotionalTone.neutral },
        topicsDiscussed := some m.statistics.topicsDiscussed,
        memoryImportance := some m.statistics.memoryImportance }
    characterSpecific := some
      { sharedExperiences := some m.characterSpecific.sharedExperiences,
        insideJokes := some m.characterSpecific.insideJokes,
        conflictHistory := some m.characterSpecific.conflictHistory,
        gifts := some m.characterSpecific.gifts,
        promises := some m.characterSpecific.promises,
        futureePlans := some m.characterSpecific.futureePlans } }

def upsertUserMemoryRow (rows : List (String × String × PartialMemory))
    (uid cid : String) (pm : PartialMemory) : List (String × String × PartialMemory) :=
  if rows.any (fun r => decide (r.1 = uid) && decide (r.2.1 = cid)) then
    rows.map (fun r => if r.1 = uid ∧ r.2.1 = cid then (uid, cid, pm) else r)
  else rows ++ [(uid, cid, pm)]

def upsertFile (files : List (String × PartialMemory)) (name : String)
    (pm : PartialMemory) : List (String × PartialMemory) :=
  if files.any (fun p => decide (p.1 = name)) then
    files.map (fun p => if p.1 = name then (name, pm) else p)
  else files ++ [(name, pm)]

/-- Embeds `MemoryManager.saveUserMemory`: reject an invalid character id,
reject a payload whose embedded (truthy) `characterId` conflicts with the
requested one, reject a path containing `..`, then write to Supabase if
available and to the file fallback otherwise. -/
def saveUserMemory (ps : PersistState) (userId characterId : String)
    (memoryData : Memory) (now : String) : Except String PersistState × List Access :=
  if ¬ isValidCharacterId characterId then
    (.error ("Cannot save memory for invalid character ID: " ++ characterId), [])
  else if memoryData.characterId ≠ "" ∧ memoryData.characterId ≠ characterId then
    (.error ("Memory character ID mismatch: " ++ memoryData.characterId ++
             " vs " ++ characterId), [])
  else
    let memory := { memoryData with userId := userId, characterId := characterId,
                                    lastUpdated := now, memoryVersion := "2.0" }
    let fileName := memoryFileName userId characterId
    if strContains fileName ".." then
      (.error ("Invalid memory file path: " ++ fileName), [])
    else if ps.supabaseAvailable then
      let wallet := stripWallet userId
      let rows := upsertUserMemoryRow ps.userMemories wallet characterId
        (memoryToPartial memory)
      (.ok { ps with userMemories := rows }, [Access.supabaseWrite wallet characterId])
    else
      let files := upsertFile ps.memoryFiles fileName (memoryToPartial memory)
      (.ok { ps with memoryFiles := files }, [Access.fileWrite fileName])

/-! ## Chat-history bookkeeping and relationship metrics -/

/-- The message object handed to `MemoryManager.addChatMessage`. -/
structure IncomingMsg where
  sender : Option String
  content : String
  emotion : Option String
deriving DecidableEq, Repr

/-- The keyword list of `MemoryManager.containsPersonalInfo`. -/
def personalKeywords : List String :=
  ["我的名字", "我叫", "我是", "我的工作", "我的家", "我的父母",
   "我喜欢", "我讨厌", "我的梦想", "我的秘密", "我害怕",
   "我希望", "我想要", "我觉得", "我认为"]

/-- Embeds `MemoryManager.containsPersonalInfo`. -/
def containsPersonalInfo (message : String) : Bool :=
  personalKeywords.any (fun keyword => strContains (jsToLower message) keyword)

/-- Embeds `MemoryManager.updateRelationshipMetrics`.  The level is
recomputed from the total message count; trust, intimacy and affection are
nudged and clamped at 100; the communication style is upgraded based on the
freshly updated intimacy. -/
def updateRelationshipMetrics (memory : Memory) (message : IncomingMsg) : Memory :=
  let messageLength := message.content.length
  let isLongMessage := decide (messageLength > 50)
  let baseLevel := min 100 (memory.statistics.totalMessages / 5 + 1)
  let trust0 :=
    if isLongMessage then min (100 : Rat) (memory.relationship.trust + 1/2)
    else memory.relationship.trust
  let trust1 := min (100 : Rat) (trust0 + 1/10)
  let intimacy1 :=
    if containsPersonalInfo message.content then
      min (100 : Rat) (memory.relationship.intimacy + 1)
    else memory.relationship.intimacy
  let affection1 :=
    if message.emotion = some "happy" ∨ message.emotion = some "excited" then
      min (100 : Rat) (memory.relationship.affection + 3/10)
    else memory.relationship.affection
  let style :=
    if (30 : Rat) < intimacy1 ∧ memory.relationship.communicationStyle = .formal then
      CommStyle.casual
    else if (70 : Rat) < intimacy1 ∧ memory.relationship.communicationStyle = .casual then
      CommStyle.intimate
    else memory.relationship.communicationStyle
  { memory with relationship :=
      { memory.relationship with
          level := baseLevel, trust := trust1, intimacy := intimacy1,
          affection := affection1, communicationStyle := style } }

/-- Word count via `content.split(/\s+/).length`: splitting collapses
whitespace runs and keeps boundary empties. -/
def jsSplitWsCount (s : String) : Nat :=
  let step := fun (acc : Nat × Bool) (c : Char) =>
    if c.isWhitespace then (if acc.2 then acc else (acc.1 + 1, true))
    else (acc.1, false)
  (s.toList.foldl step (0, false)).1 + 1

/-- The wall-clock information `addChatMessage` draws from `new Date()`. -/
structure NowInfo where
  iso : String
  hour : Nat
  dateKey : String
deriving DecidableEq, Repr

/-- Embeds the in-memory mutation performed by `MemoryManager.addChatMessage`
between loading the memory and saving it back: push the enriched message,
cap the history at the 200 most recent entries, update statistics and
temporal context, then update the relationship metrics. -/
def enrichMessage (message : IncomingMsg) : StoredChat :=
  { sender := message.sender, content := message.content,
    emotion := message.emotion, messageLength := message.content.length,
    wordsCount := jsSplitWsCount message.content }

def addChatMessageCore (memory : Memory) (message : IncomingMsg) (now : NowInfo) :
    Memory :=
  let hist0 := memory.fullChatHistory ++ [enrichMessage message]
  let hist := if hist0.length > 200 then hist0.drop (hist0.length - 200) else hist0
  let totalMessages := memory.statistics.totalMessages + 1
  let totalCharacters := memory.statistics.totalCharacters + message.content.length
  let stats := { memory.statistics with
      totalMessages := totalMessages, totalCharacters := totalCharacters,
      averageMessageLength := (totalCharacters : Rat) / (totalMessages : Rat) }
  let timeSlot := toString ((now.hour / 4) * 4) ++ "-" ++ toString ((now.hour / 4) * 4 + 4)
  let daily := match (memory.temporalContext.dailyInteractions.find?
      (fun p => decide (p.1 = now.dateKey))).map (fun p => p.2) with
    | some n => upsertAssoc memory.temporalContext.dailyInteractions now.dateKey (n + 1)
    | none => upsertAssoc memory.temporalContext.dailyInteractions now.dateKey 1
  let tc := { memory.temporalContext with
      lastChatTime := some now.iso,
      chatFrequency := memory.temporalContext.chatFrequency + 1,
      preferredChatTimes := memory.temporalContext.preferredChatTimes ++ [timeSlot],
      dailyInteractions := daily }
  let m := { memory with fullChatHistory := hist, statistics := stats,
                         temporalContext := tc }
  updateRelationshipMetrics m message

/-! ## Rolling summary (MemorySystem.updateRollingSummary)

The completion capability is an opaque function from the prompt to either a
summary text or a failure; the `rolling_summaries` table upserts on its
(user_id, npc_id) primary key. -/

structure ChatTurn where
  role : String
  content : String
deriving DecidableEq, Repr

structure SummaryRow where
  userId : String
  npcId : String
  summary : String
  messageCount : Nat
  updatedAt : String
deriving DecidableEq, Repr

def lookupSummary (tbl : List SummaryRow) (uid nid : String) : Option SummaryRow :=
  tbl.find? (fun r => decide (r.userId = uid) && decide (r.npcId = nid))

def upsertSummaryRow (tbl : List SummaryRow) (row : SummaryRow) : List SummaryRow :=
  if tbl.any (fun r => decide (r.userId = row.userId) && decide (r.npcId = row.npcId)) then
    tbl.map (fun r =>
      if r.userId = row.userId ∧ r.npcId = row.npcId then row else r)
  else tbl ++ [row]

/-- The transcript `newMessages.map(msg => role: content).join('\n')`. -/
def makeTranscript (msgs : List ChatTurn) : String :=
  String.intercalate "\n" (msgs.map (fun m => m.role ++ ": " ++ m.content))

/-- The summarization prompt template of `updateRollingSummary`. -/
def summaryPrompt (conversationText : String) : String :=
  "请将以下对话总结为简洁的要点，保留重要信息和情感色彩：\n" ++ conversationText ++
  "\n\n要求：\n- 3-5个要点，每个要点1行\n- 保留重要的事实信息\n- 记录情感变化和关系发展\n- 使用第三人称描述"

/-- Embeds `MemorySystem.updateRollingSummary`.  `ready` models the
`checkInitialization()` guard; `completion` models the OpenAI chat call,
whose failure is caught and leaves the table untouched. -/
def updateRollingSummary (ready : Bool) (tbl : List SummaryRow) (uid nid : String)
    (newMessages : List ChatTurn) (completion : String → Except Unit String)
    (now : String) : List SummaryRow :=
  if ¬ ready ∨ newMessages.length = 0 then tbl
  else
    match completion (summaryPrompt (makeTranscript newMessages)) with
    | .error _ => tbl
    | .ok newSummary =>
      upsertSummaryRow tbl
        { userId := uid, npcId := nid, summary := newSummary,
          messageCount := newMessages.length, updatedAt := now }

/-! ## Context assembler (MemorySystem.buildContextForAI) -/

structure LongTermItem where
  category : String
  key : Option String
  value : String
deriving DecidableEq, Repr

structure EpisodicItem where
  text : String
  similarity : Rat
deriving DecidableEq, Repr

structure MemoryContext where
  summary : String
  longTerm : List LongTermItem
  episodic : List EpisodicItem
deriving DecidableEq, Repr

/-- The fixed category→label table, falling back to the category itself. -/
def categoryLabel (c : String) : String :=
  if c = "preference" then "偏好"
  else if c = "fact" then "事实"
  else if c = "relationship" then "关系"
  else if c = "goal" then "目标"
  else c

/-- One grouped fact item: `(memory.key || '信息') + ': ' + memory.value`. -/
def factLine (m : LongTermItem) : String :=
  (match m.key with
   | some k => if k = "" then "信息" else k
   | none => "信息") ++ ": " ++ m.value

/-- One step of the `reduce` that groups facts by category, preserving
first-occurrence key order as a JS object does. -/
def pushGroup (acc : List (String × List String)) (cat : String) (item : String) :
    List (String × List String) :=
  if acc.any (fun p => decide (p.1 = cat)) then
    acc.map (fun p => if p.1 = cat then (p.1, p.2 ++ [item]) else p)
  else acc ++ [(cat, [item])]

def groupByCategory (l : List LongTermItem) : List (String × List String) :=
  l.foldl (fun acc m => pushGroup acc m.category (factLine m)) []

/-- The episodic snippets actually rendered: similarity strictly above 0.7,
first four kept. -/
def relevantEpisodic (mc : MemoryContext) : List EpisodicItem :=
  (mc.episodic.filter (fun m => decide ((7 : Rat)/10 < m.similarity))).take 4

/-- Embeds `MemorySystem.buildContextForAI`, following its sequential
string accumulation. -/
def buildContextForAI (mc : MemoryContext) (npcPersona : String) : String :=
  let context := "[角色设定]\n" ++ npcPersona ++ "\n\n"
  let context :=
    if mc.summary ≠ "" then context ++ "[对话历史摘要]\n" ++ mc.summary ++ "\n\n"
    else context
  let context :=
    if mc.longTerm.length ≠ 0 then
      context ++ "[用户资料记忆]\n" ++
        String.join ((groupByCategory mc.longTerm).map (fun p =>
          "- " ++ categoryLabel p.1 ++ ": " ++ String.intercalate ", " p.2 ++ "\n")) ++
        "\n"
    else context
  let context :=
    if mc.episodic.length ≠ 0 then
      context ++ "[相关回忆]\n" ++
        String.join ((relevantEpisodic mc).map (fun m => "- " ++ m.text ++ "\n")) ++ "\n"
    else context
  context

/-! Specification-side section functions, used to state the fixed-order
decomposition claim about `buildContextForAI`. -/

/-- Modelled from the spec: the persona section of the assembled context. -/
def personaSection (npcPersona : String) : String :=
  "[角色设定]\n" ++ npcPersona ++ "\n\n"

/-- Modelled from the spec: the rolling-summary section, present only when
the summary is non-empty. -/
def summarySection (mc : MemoryContext) : String :=
  if mc.summary ≠ "" then "[对话历史摘要]\n" ++ mc.summary ++ "\n\n" else ""

/-- Modelled from the spec: the grouped long-term-fact section, present
only when facts exist. -/
def factsSection (mc : MemoryContext) : String :=
  if mc.longTerm.length ≠ 0 then
    "[用户资料记忆]\n" ++
      String.join ((groupByCategory mc.longTerm).map (fun p =>
        "- " ++ categoryLabel p.1 ++ ": " ++ String.intercalate ", " p.2 ++ "\n")) ++
      "\n"
  else ""

/-- Modelled from the spec: the episodic section, present only when the
episodic list is non-empty. -/
def episodicSection (mc : MemoryContext) : String :=
  if mc.episodic.length ≠ 0 then
    "[相关回忆]\n" ++
      String.join ((relevantEpisodic mc).map (fun m => "- " ++ m.text ++ "\n")) ++ "\n"
  else ""

/-! ## Helper lemmas -/

/-- The conflict condition only looks at the identifying columns, so the
`DO UPDATE` assignment preserves it. -/
theorem keyConflict_update (r : LongTermRow) (uid nid cat : String)
    (kk : Option String) (v : String) (c now : Rat) :
    keyConflict { r with value := v, confidence := c, lastSeenAt := now }
      uid nid cat kk = keyConflict r uid nid cat kk := by
  simp [keyConflict]

theorem matching_of_append_single (tbl : List LongTermRow) (r0 : LongTermRow)
    (uid nid cat : String) (kk : Option String)
    (hnone : ∀ r ∈ tbl, keyConflict r uid nid cat kk = false)
    (hr0 : keyConflict r0 uid nid cat kk = true) :
    matchingConfidences (tbl ++ [r0]) uid nid cat kk = [r0.confidence] := by
  unfold matchingConfidences
  rw [List.filter_append, List.filter_eq_nil_iff.2 (by intro r hr; simp [hnone r hr])]
  simp [hr0]

/-- The `DO UPDATE` assignment of `upsert_long_term_memory`, as applied to
a conflicting row. -/
def mergedRow (r0 : LongTermRow) (v : String) (conf now : Rat) : LongTermRow :=
  { r0 with value := v,
            confidence := min 1 (r0.confidence * (7/10) + conf * (3/10)),
            lastSeenAt := now }

/-- The row created by the plain `INSERT` branch. -/
def freshRow (uid nid cat : String) (kk : Option String) (v : String)
    (conf now : Rat) : LongTermRow :=
  { userId := uid, npcId := nid, category := cat, key := kk, value := v,
    confidence := conf, lastSeenAt := now, createdAt := now }

theorem upsert_of_append_single (tbl : List LongTermRow) (r0 : LongTermRow)
    (uid nid cat : String) (kk : Option String) (v : String) (conf now : Rat)
    (hnone : ∀ r ∈ tbl, keyConflict r uid nid cat kk = false)
    (hr0 : keyConflict r0 uid nid cat kk = true) :
    upsertLongTermMemory (tbl ++ [r0]) uid nid cat kk v conf now
      = tbl ++ [mergedRow r0 v conf now] := by
  unfold upsertLongTermMemory
  rw [if_pos (List.any_eq_true.2 ⟨r0, by simp, hr0⟩)]
  rw [List.map_append]
  congr 1
  · calc List.map _ tbl
        = List.map id tbl := List.map_congr_left (fun r hr => by simp [hnone r hr])
      _ = tbl := List.map_id tbl
  · simp [hr0, mergedRow]

theorem upsert_no_conflict (tbl : List LongTermRow) (uid nid cat : String)
    (kk : Option String) (v : String) (conf now : Rat)
    (hnone : ∀ r ∈ tbl, keyConflict r uid nid cat kk = false) :
    upsertLongTermMemory tbl uid nid cat kk v conf now
      = tbl ++ [freshRow uid nid cat kk v conf now] := by
  have hni : tbl.any (fun r => keyConflict r uid nid cat kk) = false := by
    rw [List.any_eq_false]
    intro r hr
    simp [hnone r hr]
  unfold upsertLongTermMemory
  rw [hni]
  simp [freshRow]

theorem keyConflict_fresh (uid nid cat : String) (kstr v : String) (conf now : Rat) :
    keyConflict (freshRow uid nid cat (some kstr) v conf now)
      uid nid cat (some kstr) = true := by
  simp [keyConflict, freshRow]

theorem keyConflict_merged (r0 : LongTermRow) (uid nid cat : String)
    (kk : Option String) (v : String) (conf now : Rat)
    (hr0 : keyConflict r0 uid nid cat kk = true) :
    keyConflict (mergedRow r0 v conf now) uid nid cat kk = true := by
  simpa [keyConflict, mergedRow] using hr0

/-! ## Claim C1 -/

/-- C1, counterexample: with a null key, the claim fails.  The table holds
one row with key NULL and confidence 0.8; an upsert for the same
(userId, characterId, category, key = NULL) does not merge (Postgres unique
indexes treat NULLs as distinct, so `ON CONFLICT` never fires): the old
row keeps confidence 0.8 — not clamp(0.8·0.7 + 0.9·0.3) = 0.83 — and a
duplicate row with the incoming confidence 0.9 is inserted alongside it. -/
theorem c1_counterexample_nullKey :
    upsertLongTermMemory
        [{ userId := "u", npcId := "n", category := "fact", key := none,
           value := "v", confidence := 8/10, lastSeenAt := 0, createdAt := 0 }]
        "u" "n" "fact" none "v2" (9/10) 1
      = [{ userId := "u", npcId := "n", category := "fact", key := none,
           value := "v", confidence := 8/10, lastSeenAt := 0, createdAt := 0 },
         { userId := "u", npcId := "n", category := "fact", key := none,
           value := "v2", confidence := 9/10, lastSeenAt := 1, createdAt := 1 }]
    ∧ (8 : Rat)/10 ≠ clamp01 ((8/10) * (7/10) + (9/10) * (3/10)) := by
  constructor
  · rfl
  · exact of_decide_eq_true (by with_unfolding_all rfl)

/-- C1 (amended): for a NON-NULL key, an upsert that conflicts with
existing rows replaces their value, sets confidence to
clamp(old·0.7 + incoming·0.3, 0, 1) (the code computes LEAST(1, ·), which
equals the clamp because confidences are non-negative) and resets
last_seen_at; when no row conflicts — in particular always when the key is
null — a new row with the incoming confidence is inserted. -/
theorem c1_upsert_merge (tbl : List LongTermRow) (uid nid cat kstr v : String)
    (conf now : Rat) (hconf : 0 ≤ conf)
    (hold : ∀ r ∈ tbl, 0 ≤ r.confidence) :
    ((∃ r ∈ tbl, keyConflict r uid nid cat (some kstr) = true) →
       upsertLongTermMemory tbl uid nid cat (some kstr) v conf now
         = tbl.map (fun r =>
             if keyConflict r uid nid cat (some kstr) then
               { r with value := v,
                        confidence := clamp01 (r.confidence * (7/10) + conf * (3/10)),
                        lastSeenAt := now }
             else r))
    ∧ ((∀ r ∈ tbl, keyConflict r uid nid cat (some kstr) = false) →
       upsertLongTermMemory tbl uid nid cat (some kstr) v conf now
         = tbl ++ [freshRow uid nid cat (some kstr) v conf now]) := by
  constructor
  · rintro ⟨r, hr, hc⟩
    unfold upsertLongTermMemory
    rw [if_pos (List.any_eq_true.2 ⟨r, hr, hc⟩)]
    apply List.map_congr_left
    intro x hx
    by_cases hcx : keyConflict x uid nid cat (some kstr) = true
    · simp only [hcx, if_true]
      have hx0 : (0 : Rat) ≤ x.confidence * (7/10) + conf * (3/10) :=
        add_nonneg (mul_nonneg (hold x hx) (by norm_num))
          (mul_nonneg hconf (by norm_num))
      have : clamp01 (x.confidence * (7/10) + conf * (3/10))
          = min 1 (x.confidence * (7/10) + conf * (3/10)) := by
        unfold clamp01
        exact max_eq_right (le_min (by norm_num) hx0)
      rw [this]
    · simp [hcx]
  · exact upsert_no_conflict tbl uid nid cat (some kstr) v conf now

/-- Witness for C1: a concrete conflicting upsert (old confidence 0.8,
incoming 0.9 on the same non-null key) merges to 0.83 and replaces the
value. -/
theorem c1_upsert_merge_witness :
    (0 : Rat) ≤ 9/10
    ∧ upsertLongTermMemory
        [freshRow "u" "n" "fact" (some "name") "v" (8/10) 0]
        "u" "n" "fact" (some "name") "v2" (9/10) 1
      = [{ userId := "u", npcId := "n", category := "fact", key := some "name",
           value := "v2", confidence := 83/100, lastSeenAt := 1, createdAt := 0 }] := by
  refine ⟨by norm_num, ?_⟩
  have h := (c1_upsert_merge
    [freshRow "u" "n" "fact" (some "name") "v" (8/10) 0]
    "u" "n" "fact" "name" "v2" (9/10) 1 (by norm_num)
    (by
      intro r hr
      simp only [List.mem_singleton] at hr
      subst hr
      norm_num [freshRow])).1
    ⟨freshRow "u" "n" "fact" (some "name") "v" (8/10) 0, by simp,
      keyConflict_fresh "u" "n" "fact" "name" "v" (8/10) 0⟩
  rw [h]
  exact of_decide_eq_true (by with_unfolding_all rfl)

/-! ## Claim C7 -/

/-- C7, counterexample: starting from an empty table, three consecutive
upserts of the same (userId, characterId, category, key, value) with
confidence 0.9 leave the stored confidence at exactly 0.9 after every one
of the three calls.  The sequence is constant at 0.9 = the fixed point of
c ↦ min(1, 0.7·c + 0.3·0.9); it stays at distance 0.1 from 1.0 and so does
not converge toward 1.0 as the claim states. -/
theorem c7_counterexample_constant :
    matchingConfidences
        (upsertLongTermMemory [] "u" "n" "fact" (some "k") "v" (9/10) 1)
        "u" "n" "fact" (some "k") = [9/10]
    ∧ matchingConfidences
        (upsertLongTermMemory
          (upsertLongTermMemory [] "u" "n" "fact" (some "k") "v" (9/10) 1)
          "u" "n" "fact" (some "k") "v" (9/10) 2)
        "u" "n" "fact" (some "k") = [9/10]
    ∧ matchingConfidences
        (upsertLongTermMemory
          (upsertLongTermMemory
            (upsertLongTermMemory [] "u" "n" "fact" (some "k") "v" (9/10) 1)
            "u" "n" "fact" (some "k") "v" (9/10) 2)
          "u" "n" "fact" (some "k") "v" (9/10) 3)
        "u" "n" "fact" (some "k") = [9/10]
    ∧ (9 : Rat)/10 ≠ 1 := by
  refine ⟨?_, ?_, ?_, ?_⟩ <;> exact of_decide_eq_true (by with_unfolding_all rfl)

/-- C7 (amended): over any table with no row for the key, three
consecutive upserts of the same (userId, characterId, category, non-null
key, value) with confidence 0.9 give the constant confidence sequence
0.9, 0.9, 0.9 — monotonically non-decreasing, never above 1.0, never below
the initial 0.9, and converging to 0.9 (the fixed point of the merge for
incoming confidence 0.9) rather than toward 1.0. -/
theorem c7_repeated_upsert (tbl : List LongTermRow) (uid nid cat kstr v : String)
    (n1 n2 n3 : Rat)
    (hnone : ∀ r ∈ tbl, keyConflict r uid nid cat (some kstr) = false) :
    matchingConfidences
        (upsertLongTermMemory tbl uid nid cat (some kstr) v (9/10) n1)
        uid nid cat (some kstr) = [9/10]
    ∧ matchingConfidences
        (upsertLongTermMemory
          (upsertLongTermMemory tbl uid nid cat (some kstr) v (9/10) n1)
          uid nid cat (some kstr) v (9/10) n2)
        uid nid cat (some kstr) = [9/10]
    ∧ matchingConfidences
        (upsertLongTermMemory
          (upsertLongTermMemory
            (upsertLongTermMemory tbl uid nid cat (some kstr) v (9/10) n1)
            uid nid cat (some kstr) v (9/10) n2)
          uid nid cat (some kstr) v (9/10) n3)
        uid nid cat (some kstr) = [9/10]
    ∧ ((9 : Rat)/10 ≤ 9/10 ∧ (9 : Rat)/10 ≤ 1 ∧ (9 : Rat)/10 ≠ 1) := by
  have e1 := upsert_no_conflict tbl uid nid cat (some kstr) v (9/10) n1 hnone
  have hf := keyConflict_fresh uid nid cat kstr v (9/10) n1
  have e2 := upsert_of_append_single tbl _ uid nid cat (some kstr) v (9/10) n2 hnone hf
  have hf2 := keyConflict_merged _ uid nid cat (some kstr) v (9/10) n2 hf
  have e3 := upsert_of_append_single tbl _ uid nid cat (some kstr) v (9/10) n3 hnone hf2
  have hf3 := keyConflict_merged _ uid nid cat (some kstr) v (9/10) n3 hf2
  have hc1 : (freshRow uid nid cat (some kstr) v (9/10) n1).confidence = 9/10 := rfl
  have hc2 : (mergedRow (freshRow uid nid cat (some kstr) v (9/10) n1) v (9/10) n2).confidence
      = 9/10 := by
    show min (1 : Rat) ((9/10) * (7/10) + (9/10) * (3/10)) = 9/10
    norm_num
  have hc3 : (mergedRow (mergedRow (freshRow uid nid cat (some kstr) v (9/10) n1)
        v (9/10) n2) v (9/10) n3).confidence = 9/10 := by
    show min (1 : Rat)
        ((mergedRow (freshRow uid nid cat (some kstr) v (9/10) n1) v (9/10) n2).confidence
          * (7/10) + (9/10) * (3/10)) = 9/10
    rw [hc2]
    norm_num
  refine ⟨?_, ?_, ?_, by norm_num, by norm_num, by norm_num⟩
  · rw [e1, matching_of_append_single tbl _ uid nid cat (some kstr) hnone hf, hc1]
  · rw [e1, e2, matching_of_append_single tbl _ uid nid cat (some kstr) hnone hf2, hc2]
  · rw [e1, e2, e3,
      matching_of_append_single tbl _ uid nid cat (some kstr) hnone hf3, hc3]

/-- Witness for C7: the scenario run from the empty table. -/
theorem c7_repeated_upsert_witness :
    matchingConfidences
        (upsertLongTermMemory [] "u" "n" "preference" (some "food") "tea" (9/10) 1)
        "u" "n" "preference" (some "food") = [9/10] := by
  exact (c7_repeated_upsert [] "u" "n" "preference" "food" "tea" 1 2 3
    (by intro r hr; simp at hr)).1

/-! ## Claim C2 -/

/-- C2, counterexample: the character id "Alice" is not an element of the
fixed registry array, yet `getUserMemory` does not reject it — validation
lowercases first — and the load proceeds to the persistence layer (the
file backend is read). -/
theorem c2_counterexample_case :
    ("Alice" ∈ validCharacters → False)
    ∧ (getUserMemory { supabaseAvailable := false, userMemories := [],
                       memoryFiles := [] } "u" "Alice" "t").1
        = Except.ok (newMemoryStructure "u" "Alice" "t")
    ∧ (getUserMemory { supabaseAvailable := false, userMemories := [],
                       memoryFiles := [] } "u" "Alice" "t").2
        = [Access.fileRead "u_Alice.json"] := by
  refine ⟨by decide, rfl, rfl⟩

/-- C2 (amended): for every characterId whose lowercased form is not in
the fixed registry, every store operation — loading a user's memory,
creating a fresh memory structure, saving a memory — fails with an error,
and neither load nor save touches the persistence layer (their access
trace is empty). -/
theorem c2_invalid_rejected (ps : PersistState) (userId characterId : String)
    (mem : Memory) (now : String)
    (h : isValidCharacterId characterId = false) :
    getUserMemory ps userId characterId now
      = (Except.error ("Cannot create memory for invalid character ID: " ++ characterId), [])
    ∧ createNewMemoryStructure userId characterId now
      = Except.error ("Cannot create memory for invalid character ID: " ++ characterId)
    ∧ saveUserMemory ps userId characterId mem now
      = (Except.error ("Cannot save memory for invalid character ID: " ++ characterId), []) := by
  have hcreate : createNewMemoryStructure userId characterId now
      = Except.error ("Cannot create memory for invalid character ID: " ++ characterId) := by
    unfold createNewMemoryStructure
    rw [if_neg (by simp [h])]
  refine ⟨?_, hcreate, ?_⟩
  · unfold getUserMemory
    rw [if_neg (by simp [h]), hcreate]
  · unfold saveUserMemory
    rw [if_pos (by simp [h])]

/-- Witness for C2: the invalid id "zzz" is rejected by all three
operations without touching persistence. -/
theorem c2_invalid_rejected_witness :
    isValidCharacterId "zzz" = false
    ∧ getUserMemory { supabaseAvailable := true, userMemories := [],
                      memoryFiles := [] } "u" "zzz" "t"
        = (Except.error ("Cannot create memory for invalid character ID: " ++ "zzz"), [])
    ∧ saveUserMemory { supabaseAvailable := true, userMemories := [],
                       memoryFiles := [] } "u" "zzz"
        (newMemoryStructure "u" "alice" "t0") "t"
        = (Except.error ("Cannot save memory for invalid character ID: " ++ "zzz"), []) := by
  have h := c2_invalid_rejected
    { supabaseAvailable := true, userMemories := [], memoryFiles := [] }
    "u" "zzz" (newMemoryStructure "u" "alice" "t0") "t" (by decide)
  exact ⟨by decide, h.1, h.2.2⟩

/-! ## Claim C3 -/

/-- C3: for every query, `match_episodic_memories` returns only rows whose
stored userId and npcId equal the requested pair, excludes every row whose
similarity is not strictly above the threshold, is ordered by similarity
descending, and returns at most `k` rows — for any cosine-distance
operator. -/
theorem c3_match_episodic {Emb : Type} (cosDist : Emb → Emb → Rat)
    (db : List (EpisodicRow Emb)) (uid nid : String) (q : Emb)
    (k : Nat) (threshold : Rat) :
    (∀ m ∈ matchEpisodicMemories cosDist db uid nid q k threshold,
       ∃ e ∈ db, e.userId = uid ∧ e.npcId = nid ∧ m.id = e.id ∧ m.text = e.text
         ∧ m.similarity = 1 - cosDist e.embedding q)
    ∧ (∀ m ∈ matchEpisodicMemories cosDist db uid nid q k threshold,
       threshold < m.similarity)
    ∧ List.Pairwise (fun a b => b.similarity ≤ a.similarity)
        (matchEpisodicMemories cosDist db uid nid q k threshold)
    ∧ (matchEpisodicMemories cosDist db uid nid q k threshold).length ≤ k := by
  have hfil : ∀ e ∈ db.filter (fun e =>
      decide (e.userId = uid) && decide (e.npcId = nid) &&
        decide (threshold < 1 - cosDist e.embedding q)),
      e ∈ db ∧ e.userId = uid ∧ e.npcId = nid ∧ threshold < 1 - cosDist e.embedding q := by
    intro e he
    have h := List.mem_filter.1 he
    refine ⟨h.1, ?_⟩
    simpa [Bool.and_eq_true, decide_eq_true_eq, and_assoc] using h.2
  have hperm := List.perm_insertionSort (distLe cosDist q)
    (db.filter (fun e =>
      decide (e.userId = uid) && decide (e.npcId = nid) &&
        decide (threshold < 1 - cosDist e.embedding q)))
  have hsub : ∀ e ∈ (List.insertionSort (distLe cosDist q)
      (db.filter (fun e =>
        decide (e.userId = uid) && decide (e.npcId = nid) &&
          decide (threshold < 1 - cosDist e.embedding q)))).take k,
      e ∈ db.filter (fun e =>
        decide (e.userId = uid) && decide (e.npcId = nid) &&
          decide (threshold < 1 - cosDist e.embedding q)) :=
    fun e he => hperm.mem_iff.1 (List.take_subset k _ he)
  refine ⟨?_, ?_, ?_, ?_⟩
  · intro m hm
    obtain ⟨e, he, rfl⟩ := List.mem_map.1 hm
    obtain ⟨hedb, h1, h2, _⟩ := hfil e (hsub e he)
    exact ⟨e, hedb, h1, h2, rfl, rfl, rfl⟩
  · intro m hm
    obtain ⟨e, he, rfl⟩ := List.mem_map.1 hm
    exact (hfil e (hsub e he)).2.2.2
  · have hs : List.Pairwise (distLe cosDist q) (List.insertionSort (distLe cosDist q)
        (db.filter (fun e =>
          decide (e.userId = uid) && decide (e.npcId = nid) &&
            decide (threshold < 1 - cosDist e.embedding q)))) := by
      haveI : IsTotal (EpisodicRow Emb) (distLe cosDist q) := ⟨fun _ _ => le_total _ _⟩
      haveI : IsTrans (EpisodicRow Emb) (distLe cosDist q) :=
        ⟨fun _ _ _ hab hbc => le_trans hab hbc⟩
      exact List.sorted_insertionSort _ _
    have hst := hs.sublist (List.take_sublist k _)
    refine List.pairwise_map.2 (hst.imp ?_)
    intro a b hab
    simpa using sub_le_sub_left hab 1
  · unfold matchEpisodicMemories
    rw [List.length_map]
    exact List.length_take_le k _

/-- Witness for C3: a two-row store with one row for another user; the
query returns exactly the matching row, whose similarity beats the
threshold. -/
theorem c3_match_episodic_witness :
    ({ id := 1, text := "hello", createdAt := 0, similarity := 1 } : EpisodicMatch)
        ∈ matchEpisodicMemories (fun _ _ => (0 : Rat))
            [{ id := 1, userId := "u", npcId := "n", text := "hello", embedding := (), createdAt := 0 },
             { id := 2, userId := "u2", npcId := "n", text := "x", embedding := (), createdAt := 0 }]
            "u" "n" () 8 (3/10)
    ∧ (3 : Rat)/10
        < ({ id := 1, text := "hello", createdAt := 0, similarity := 1 } : EpisodicMatch).similarity := by
  have hmem : ({ id := 1, text := "hello", createdAt := 0, similarity := 1 } : EpisodicMatch)
      ∈ matchEpisodicMemories (fun _ _ => (0 : Rat))
          [{ id := 1, userId := "u", npcId := "n", text := "hello", embedding := (), createdAt := 0 },
           { id := 2, userId := "u2", npcId := "n", text := "x", embedding := (), createdAt := 0 }]
          "u" "n" () 8 (3/10) :=
    of_decide_eq_true (by with_unfolding_all rfl)
  exact ⟨hmem, (c3_match_episodic (fun _ _ => (0 : Rat)) _ "u" "n" () 8 (3/10)).2.1 _ hmem⟩

/-! ## Claim C4 -/

/-- C4: whenever a loaded record's embedded characterId is present
(truthy) and differs from the requested one, the record is discarded and a
fresh empty structure for the requested pair is returned — at the
`ensureMemoryStructure` funnel, on the Supabase load path, and on the
file-fallback load path. -/
theorem c4_mismatch_discarded (pm : PartialMemory) (ps : PersistState)
    (userId characterId c now : String)
    (hvalid : isValidCharacterId characterId = true)
    (hc : pm.characterId = some c) (hne : c ≠ "") (hnc : c ≠ characterId) :
    ensureMemoryStructure pm userId characterId now
      = Except.ok (newMemoryStructure userId characterId now)
    ∧ (ps.supabaseAvailable = true →
       lookupUserMemoryRow ps.userMemories (stripWallet userId) characterId = some pm →
       getUserMemory ps userId characterId now
         = (Except.ok (newMemoryStructure userId characterId now),
            [Access.supabaseRead (stripWallet userId) characterId]))
    ∧ (ps.supabaseAvailable = false →
       lookupFile ps.memoryFiles (memoryFileName userId characterId) = some pm →
       getUserMemory ps userId characterId now
         = (Except.ok (newMemoryStructure userId characterId now),
            [Access.fileRead (memoryFileName userId characterId)])) := by
  have hcreate : createNewMemoryStructure userId characterId now
      = Except.ok (newMemoryStructure userId characterId now) := by
    unfold createNewMemoryStructure
    rw [if_pos (by simp [hvalid])]
  have hensure : ensureMemoryStructure pm userId characterId now
      = Except.ok (newMemoryStructure userId characterId now) := by
    unfold ensureMemoryStructure
    rw [hc]
    simp [hne, hnc, hcreate]
  refine ⟨hensure, ?_, ?_⟩
  · intro hsup hlook
    unfold getUserMemory
    rw [if_pos (by simp [hvalid]), hsup]
    simp only [if_true, hlook, hensure]
  · intro hsup hlook
    unfold getUserMemory getUserMemoryFileBranch
    rw [if_pos (by simp [hvalid]), hsup]
    simp only [Bool.false_eq_true, if_false, hlook, hc]
    rw [if_pos hnc, hcreate]

/-- Witness for C4: a record stamped for "ash" requested as "alice" is
discarded on all three paths. -/
theorem c4_mismatch_discarded_witness :
    ensureMemoryStructure { characterId := some "ash" } "u" "alice" "t"
      = Except.ok (newMemoryStructure "u" "alice" "t")
    ∧ getUserMemory
        { supabaseAvailable := true,
          userMemories := [("u", "alice", { characterId := some "ash" })],
          memoryFiles := [] } "u" "alice" "t"
      = (Except.ok (newMemoryStructure "u" "alice" "t"),
         [Access.supabaseRead "u" "alice"])
    ∧ getUserMemory
        { supabaseAvailable := false, userMemories := [],
          memoryFiles := [("u_alice.json", { characterId := some "ash" })] }
        "u" "alice" "t"
      = (Except.ok (newMemoryStructure "u" "alice" "t"),
         [Access.fileRead "u_alice.json"]) := by
  have h1 := c4_mismatch_discarded { characterId := some "ash" }
    { supabaseAvailable := true,
      userMemories := [("u", "alice", { characterId := some "ash" })],
      memoryFiles := [] }
    "u" "alice" "ash" "t" (by decide) rfl (by decide) (by decide)
  have h2 := c4_mismatch_discarded { characterId := some "ash" }
    { supabaseAvailable := false, userMemories := [],
      memoryFiles := [("u_alice.json", { characterId := some "ash" })] }
    "u" "alice" "ash" "t" (by decide) rfl (by decide) (by decide)
  exact ⟨h1.1, h1.2.1 rfl rfl, h2.2.2 rfl rfl⟩

/-! ## Claim C5 -/

/-- C5: after every relationship update performed by `addChatMessage`, the
level equals min(100, floor(totalMessages / 5) + 1) where totalMessages is
the total message count at that point (the counter already includes the
message being added); in particular a total of 47 messages gives level
10. -/
theorem c5_level_formula (memory : Memory) (message : IncomingMsg) (now : NowInfo) :
    (addChatMessageCore memory message now).relationship.level
      = min 100 ((addChatMessageCore memory message now).statistics.totalMessages / 5 + 1)
    ∧ ((addChatMessageCore memory message now).statistics.totalMessages = 47 →
       (addChatMessageCore memory message now).relationship.level = 10) := by
  have h1 : (addChatMessageCore memory message now).relationship.level
      = min 100 ((addChatMessageCore memory message now).statistics.totalMessages / 5 + 1) := by
    simp [addChatMessageCore, updateRelationshipMetrics]
  refine ⟨h1, fun h => ?_⟩
  rw [h1, h]
  decide

/-- Witness for C5: a memory holding 46 messages reaches 47 on the next
message and lands exactly on level 10. -/
theorem c5_level_formula_witness :
    (addChatMessageCore { newMemoryStructure "u" "alice" "t0" with statistics := { (newMemoryStructure "u" "alice" "t0").statistics with totalMessages := 46 } } { sender := none, content := "hi", emotion := none } { iso := "t1", hour := 12, dateKey := "d" }).relationship.level = 10 := by
  exact (c5_level_formula _ _ _).2 rfl

/-! ## Claim C6 -/

/-- C6: the communication style is a one-way ratchet along
formal → casual → intimate: a single relationship update never lowers the
style's rank, it upgrades formal to casual exactly when the updated
intimacy exceeds 30, upgrades casual to intimate exactly when the updated
intimacy exceeds 70, and across any sequence of updates the rank never
decreases. -/
theorem c6_style_ratchet :
    (∀ (memory : Memory) (message : IncomingMsg),
       styleRank memory.relationship.communicationStyle
         ≤ styleRank ((updateRelationshipMetrics memory message).relationship.communicationStyle))
    ∧ (∀ (memory : Memory) (message : IncomingMsg),
       memory.relationship.communicationStyle = CommStyle.formal →
       (30 : Rat) < (updateRelationshipMetrics memory message).relationship.intimacy →
       (updateRelationshipMetrics memory message).relationship.communicationStyle
         = CommStyle.casual)
    ∧ (∀ (memory : Memory) (message : IncomingMsg),
       memory.relationship.communicationStyle = CommStyle.casual →
       (70 : Rat) < (updateRelationshipMetrics memory message).relationship.intimacy →
       (updateRelationshipMetrics memory message).relationship.communicationStyle
         = CommStyle.intimate)
    ∧ (∀ (messages : List IncomingMsg) (memory : Memory),
       styleRank memory.relationship.communicationStyle
         ≤ styleRank ((messages.foldl updateRelationshipMetrics memory).relationship.communicationStyle)) := by
  have hrank : ∀ (st : CommStyle) (I : Rat),
      styleRank st
        ≤ styleRank (if (30 : Rat) < I ∧ st = CommStyle.formal then CommStyle.casual
            else if (70 : Rat) < I ∧ st = CommStyle.casual then CommStyle.intimate
            else st) := by
    intro st I
    split_ifs with h1 h2
    · rw [h1.2]
      decide
    · rw [h2.2]
      decide
    · exact le_refl _
  have hstep : ∀ (memory : Memory) (message : IncomingMsg),
      styleRank memory.relationship.communicationStyle
        ≤ styleRank ((updateRelationshipMetrics memory message).relationship.communicationStyle) := by
    intro memory message
    simp only [updateRelationshipMetrics]
    exact hrank _ _
  refine ⟨hstep, ?_, ?_, ?_⟩
  · intro memory message hformal hint
    simp only [updateRelationshipMetrics] at hint ⊢
    rw [if_pos ⟨hint, hformal⟩]
  · intro memory message hcasual hint
    simp only [updateRelationshipMetrics] at hint ⊢
    rw [if_neg (by simp [hcasual]), if_pos ⟨hint, hcasual⟩]
  · intro messages
    induction messages with
    | nil => intro memory; exact le_refl _
    | cons m ms ih =>
      intro memory
      rw [List.foldl_cons]
      exact le_trans (hstep memory m) (ih (updateRelationshipMetrics memory m))

/-- Witness for C6: with intimacy 31 a formal memory turns casual; with
intimacy 71 a casual memory turns intimate. -/
theorem c6_style_ratchet_witness :
    (updateRelationshipMetrics { newMemoryStructure "u" "alice" "t0" with relationship := { (newMemoryStructure "u" "alice" "t0").relationship with intimacy := 31 } } { sender := none, content := "hi", emotion := none }).relationship.communicationStyle = CommStyle.casual
    ∧ (updateRelationshipMetrics { newMemoryStructure "u" "alice" "t0" with relationship := { (newMemoryStructure "u" "alice" "t0").relationship with intimacy := 71, communicationStyle := CommStyle.casual } } { sender := none, content := "hi", emotion := none }).relationship.communicationStyle = CommStyle.intimate := by
  constructor
  · exact c6_style_ratchet.2.1 _ _ rfl
      (of_decide_eq_true (by with_unfolding_all rfl))
  · exact c6_style_ratchet.2.2.1 _ _ rfl
      (of_decide_eq_true (by with_unfolding_all rfl))

/-! ## Claim C10 -/

/-- C10: after every `addChatMessage`, the chat history holds at most 200
entries, and when the insertion would exceed 200 the oldest entries are
dropped so that exactly the 200 most recent remain. -/
theorem c10_history_cap (memory : Memory) (message : IncomingMsg) (now : NowInfo) :
    (addChatMessageCore memory message now).fullChatHistory.length ≤ 200
    ∧ (200 < memory.fullChatHistory.length + 1 →
       (addChatMessageCore memory message now).fullChatHistory.length = 200
       ∧ (addChatMessageCore memory message now).fullChatHistory
           = (memory.fullChatHistory ++ [enrichMessage message]).drop
               (memory.fullChatHistory.length + 1 - 200)) := by
  have hfull : (addChatMessageCore memory message now).fullChatHistory
      = (if (memory.fullChatHistory ++ [enrichMessage message]).length > 200 then
           (memory.fullChatHistory ++ [enrichMessage message]).drop
             ((memory.fullChatHistory ++ [enrichMessage message]).length - 200)
         else memory.fullChatHistory ++ [enrichMessage message]) := by
    simp [addChatMessageCore, updateRelationshipMetrics]
  constructor
  · rw [hfull]
    split_ifs with h
    · rw [List.length_drop]
      omega
    · rw [List.length_append] at h ⊢
      simp only [List.length_singleton] at h ⊢
      omega
  · intro hbig
    have hcond : (memory.fullChatHistory ++ [enrichMessage message]).length > 200 := by
      rw [List.length_append]
      simpa using hbig
    rw [hfull, if_pos hcond]
    constructor
    · rw [List.length_drop]
      rw [List.length_append] at hcond ⊢
      simp only [List.length_singleton] at hcond ⊢
      omega
    · rw [List.length_append, List.length_singleton]

/-- Witness for C10: a history already at 200 entries stays at exactly 200
after the next message. -/
theorem c10_history_cap_witness :
    (addChatMessageCore { newMemoryStructure "u" "alice" "t0" with fullChatHistory := List.replicate 200 { sender := none, content := "x", emotion := none, messageLength := 1, wordsCount := 1 } } { sender := none, content := "hi", emotion := none } { iso := "t1", hour := 12, dateKey := "d" }).fullChatHistory.length = 200 := by
  exact ((c10_history_cap _ _ _).2 (by rw [List.length_replicate]; omega)).1

/-! ## Claim C8 -/

theorem find_map_replace (tbl : List SummaryRow) (row : SummaryRow)
    (h : tbl.any (fun r => decide (r.userId = row.userId) && decide (r.npcId = row.npcId)) = true) :
    (tbl.map (fun r => if r.userId = row.userId ∧ r.npcId = row.npcId then row else r)).find?
        (fun r => decide (r.userId = row.userId) && decide (r.npcId = row.npcId))
      = some row := by
  induction tbl with
  | nil => simp at h
  | cons a t ih =>
    by_cases ha : a.userId = row.userId ∧ a.npcId = row.npcId
    · simp only [List.map_cons, if_pos ha]
      simp
    · have hpa : (decide (a.userId = row.userId) && decide (a.npcId = row.npcId)) = false := by
        rcases not_and_or.1 ha with h1 | h1 <;> simp [h1]
      simp only [List.any_cons, hpa, Bool.false_or] at h
      simp only [List.map_cons, if_neg ha, List.find?_cons, hpa]
      exact ih h

theorem find_append_fresh (tbl : List SummaryRow) (row : SummaryRow)
    (h : tbl.any (fun r => decide (r.userId = row.userId) && decide (r.npcId = row.npcId)) = false) :
    (tbl ++ [row]).find?
        (fun r => decide (r.userId = row.userId) && decide (r.npcId = row.npcId))
      = some row := by
  induction tbl with
  | nil => simp
  | cons a t ih =>
    simp only [List.any_cons, Bool.or_eq_false_iff] at h
    simp only [List.cons_append, List.find?_cons, h.1]
    exact ih h.2

/-- Looking up the key just upserted always yields the upserted row. -/
theorem lookup_upsertSummaryRow (tbl : List SummaryRow) (row : SummaryRow) :
    lookupSummary (upsertSummaryRow tbl row) row.userId row.npcId = some row := by
  unfold upsertSummaryRow lookupSummary
  by_cases h : tbl.any (fun r => decide (r.userId = row.userId) && decide (r.npcId = row.npcId)) = true
  · rw [if_pos h]
    exact find_map_replace tbl row h
  · rw [if_neg h]
    exact find_append_fresh tbl row (Bool.not_eq_true _ ▸ Bool.of_not_eq_true h)

/-- C8: after a successful rolling-summary refresh the stored row for the
pair has messageCount equal to the number of turns passed in and summary
equal to the newly generated text — whatever was stored before, so the
summary is replaced rather than appended; when the completion call fails
(or there is nothing to summarize), the table is left unchanged. -/
theorem c8_rolling_summary (ready : Bool) (tbl : List SummaryRow) (uid nid : String)
    (newMessages : List ChatTurn) (completion : String → Except Unit String)
    (now : String) :
    (ready = true → newMessages.length ≠ 0 →
     ∀ text, completion (summaryPrompt (makeTranscript newMessages)) = .ok text →
       lookupSummary (updateRollingSummary ready tbl uid nid newMessages completion now)
           uid nid
         = some { userId := uid, npcId := nid, summary := text,
                  messageCount := newMessages.length, updatedAt := now })
    ∧ (∀ e, completion (summaryPrompt (makeTranscript newMessages)) = .error e →
       updateRollingSummary ready tbl uid nid newMessages completion now = tbl) := by
  constructor
  · intro hready hlen text hok
    unfold updateRollingSummary
    rw [if_neg (by simp [hready, hlen]), hok]
    exact lookup_upsertSummaryRow tbl
      { userId := uid, npcId := nid, summary := text,
        messageCount := newMessages.length, updatedAt := now }
  · intro e herr
    unfold updateRollingSummary
    by_cases hc : ¬ ready = true ∨ newMessages.length = 0
    · rw [if_pos hc]
    · rw [if_neg hc, herr]

/-- Witness for C8: a previously stored summary "OLD" is replaced by the
freshly generated "NEW" with messageCount 1; with a failing completion the
stored row survives untouched. -/
theorem c8_rolling_summary_witness :
    lookupSummary
        (updateRollingSummary true [{ userId := "u", npcId := "n", summary := "OLD", messageCount := 5, updatedAt := "t0" }] "u" "n" [{ role := "user", content := "hi" }] (fun _ => .ok "NEW") "t1")
        "u" "n"
      = some { userId := "u", npcId := "n", summary := "NEW", messageCount := 1,
               updatedAt := "t1" }
    ∧ updateRollingSummary true [{ userId := "u", npcId := "n", summary := "OLD", messageCount := 5, updatedAt := "t0" }] "u" "n" [{ role := "user", content := "hi" }] (fun _ => .error ()) "t1"
      = [{ userId := "u", npcId := "n", summary := "OLD", messageCount := 5, updatedAt := "t0" }] := by
  constructor
  · exact (c8_rolling_summary true _ "u" "n" _ _ "t1").1 rfl (by decide) "NEW" rfl
  · exact (c8_rolling_summary true _ "u" "n" _ _ "t1").2 () rfl

/-! ## Claim C9 -/

/-- C9: the assembled context is exactly persona section, then summary
section, then facts section, then episodic section, in that order; each
data-dependent section is omitted entirely (it is the empty string) when
its data is missing; the episodic snippets rendered are exactly those with
similarity strictly above 0.7, capped at 4; and when the episodic list is
sorted by similarity descending (as the retrieval RPC returns it), the 4
kept are the most similar: every dropped filtered row has similarity at
most that of every kept one. -/
theorem c9_build_context (mc : MemoryContext) (npcPersona : String) :
    buildContextForAI mc npcPersona
      = ((personaSection npcPersona ++ summarySection mc) ++ factsSection mc)
          ++ episodicSection mc
    ∧ (mc.summary = "" → summarySection mc = "")
    ∧ (mc.longTerm = [] → factsSection mc = "")
    ∧ (mc.episodic = [] → episodicSection mc = "")
    ∧ (∀ m ∈ relevantEpisodic mc, (7 : Rat)/10 < m.similarity)
    ∧ (relevantEpisodic mc).length ≤ 4
    ∧ (List.Pairwise (fun a b => b.similarity ≤ a.similarity) mc.episodic →
       ∀ x ∈ relevantEpisodic mc,
       ∀ y ∈ (mc.episodic.filter (fun m => decide ((7 : Rat)/10 < m.similarity))).drop 4,
       y.similarity ≤ x.similarity) := by
  refine ⟨?_, ?_, ?_, ?_, ?_, ?_, ?_⟩
  · unfold buildContextForAI personaSection summarySection factsSection episodicSection
    split_ifs <;> simp only [String.append_assoc, String.append_empty]
  · intro h
    simp [summarySection, h]
  · intro h
    simp [factsSection, h]
  · intro h
    simp [episodicSection, h]
  · intro m hm
    have hmf := List.take_subset 4 _ hm
    have := List.mem_filter.1 hmf
    simpa [decide_eq_true_eq] using this.2
  · exact List.length_take_le 4 _
  · intro hp x hx y hy
    have hfil : List.Pairwise (fun a b => b.similarity ≤ a.similarity)
        (mc.episodic.filter (fun m => decide ((7 : Rat)/10 < m.similarity))) :=
      hp.sublist (List.filter_sublist _)
    have hsplit := List.take_append_drop 4
      (mc.episodic.filter (fun m => decide ((7 : Rat)/10 < m.similarity)))
    rw [← hsplit] at hfil
    exact (List.pairwise_append.1 hfil).2.2 x hx y hy

/-- Witness for C9: an empty snapshot renders only the persona section and
all conditional sections are omitted. -/
theorem c9_build_context_witness :
    buildContextForAI { summary := "", longTerm := [], episodic := [] } "P"
      = ((personaSection "P" ++ summarySection { summary := "", longTerm := [], episodic := [] }) ++ factsSection { summary := "", longTerm := [], episodic := [] }) ++ episodicSection { summary := "", longTerm := [], episodic := [] }
    ∧ summarySection { summary := "", longTerm := [], episodic := [] } = ""
    ∧ factsSection { summary := "", longTerm := [], episodic := [] } = ""
    ∧ episodicSection { summary := "", longTerm := [], episodic := [] } = ""
    ∧ (∀ x ∈ relevantEpisodic { summary := "", longTerm := [], episodic := [] },
       ∀ y ∈ ((({ summary := "", longTerm := [], episodic := [] } : MemoryContext)).episodic.filter (fun m => decide ((7 : Rat)/10 < m.similarity))).drop 4,
       y.similarity ≤ x.similarity) := by
  have h := c9_build_context { summary := "", longTerm := [], episodic := [] } "P"
  exact ⟨h.1, h.2.1 rfl, h.2.2.1 rfl, h.2.2.2.1 rfl,
    h.2.2.2.2.2.2 (by simp)⟩

end VrmAI
